import Mathlib

/-!
# Verification of the agricultural data pipeline

Shallow embedding of the repository's transformation pipeline
(`scripts/data_ingestion.py`, `scripts/field_data_processor.py`,
`scripts/weather_data_processor.py`) and proofs of the specified
properties.

Modelling conventions:
* Python exceptions are represented by the `PyErr` type and fallible code
  returns `Except PyErr α`.
* Dataframe cell contents are `Val` (a string, an exact rational standing
  for a Python float, or the null/NaN marker).  Python floats are modelled
  as exact rationals: the claims under study concern which value is
  selected and how values move, never rounding.
* `re.search` is embedded by a small backtracking regular-expression
  engine (`Regex`, `matchList`, `reSearch`) covering exactly the
  constructs appearing in the repository's configured patterns
  (character literals, `\d`, `\s`, `+`, `?`, `*`, alternation and
  capturing groups) with Python's leftmost-search, greedy,
  first-alternative-wins semantics.  Pattern strings in the
  configuration are written as explicit `Regex` syntax trees.
-/

/-- The kinds of Python exception the embedded code can raise. -/
inductive PyErr where
  /-- `IndexError`: e.g. `list(d.keys())[0]` on an empty dict. -/
  | indexError
  /-- `AttributeError`: attribute access on `None`
      (a null-dereference-style crash). -/
  | attributeError
  /-- `TypeError`: e.g. subscripting `None`, or `abs` of a string. -/
  | typeError
  /-- `KeyError` with the missing key: column lookup / `drop` failure. -/
  | keyError (key : String)
  /-- `ValueError` with its message. -/
  | valueError (msg : String)
  /-- `StopIteration`: `next` on an exhausted iterator with no default. -/
  | stopIteration
deriving DecidableEq, Repr

/-- A dataframe cell: a string, a numeric value (Python float modelled as
an exact rational), or null/NaN. -/
inductive Val where
  | str (s : String)
  | num (q : ℚ)
  | null
deriving DecidableEq, Repr

deriving instance DecidableEq for Except

/-- Regular-expression syntax trees, covering the constructs used by the
repository's configured patterns.  `group i r` is a capturing group whose
Python group number is `i + 1` (groups are listed 0-based here). -/
inductive Regex where
  /-- matches the empty string -/
  | eps
  /-- a literal character -/
  | char (c : Char)
  /-- `\d` -/
  | digit
  /-- `\s` -/
  | space
  /-- concatenation -/
  | seq (r1 r2 : Regex)
  /-- alternation `|`, left branch preferred (Python semantics) -/
  | alt (r1 r2 : Regex)
  /-- `*`, greedy (Python semantics) -/
  | star (r : Regex)
  /-- capturing group with 0-based index `i` -/
  | group (i : Nat) (r : Regex)
deriving DecidableEq, Repr

/-- `r?` (greedy option). -/
def Regex.opt (r : Regex) : Regex := .alt r .eps

/-- `r+` (greedy plus). -/
def Regex.plus (r : Regex) : Regex := .seq r (.star r)

/-- A literal string as a regex. -/
def Regex.lit (s : String) : Regex :=
  s.toList.foldr (fun c r => Regex.seq (Regex.char c) r) Regex.eps

/-- One more than the largest 0-based group index occurring in `r`:
the number of slots of the `match.groups()` tuple. -/
def Regex.groupBound : Regex → Nat
  | .eps | .char _ | .digit | .space => 0
  | .seq a b | .alt a b => max a.groupBound b.groupBound
  | .star r => r.groupBound
  | .group i r => max (i + 1) r.groupBound

/-- The capture state: slot `i` holds what group `i` last captured
(`none` = the group did not participate, Python's `None`). -/
abbrev Caps := List (Option String)

/-- The size of a regex syntax tree, used to compute a sufficient fuel
for the matcher. -/
def Regex.size : Regex → Nat
  | .eps | .char _ | .digit | .space => 1
  | .seq a b | .alt a b => a.size + b.size + 1
  | .star r => r.size + 1
  | .group _ r => r.size + 1

/-- All ways `r` can match a prefix of `s`, in Python's backtracking
preference order (greedy quantifiers, left alternative first).  Each
result is the remaining suffix paired with the updated capture state.
`fuel` is consumed once per call and bounds the recursion depth, making
the definition structurally recursive (so it evaluates by kernel
reduction); with fuel exhausted the call reports no match.  Along any
call path, descending into subexpressions is bounded by the size of the
regex and every re-entry into a `star` consumes at least one character
of `s` (the progress filter — Python likewise stops zero-width star
iterations), so `(r.size + 1) * (s.length + 1) + 1` is always enough
fuel. -/
def matchList : Nat → Regex → List Char → Caps → List (List Char × Caps)
  | 0, _, _, _ => []
  | n + 1, r, s, caps =>
    match r with
    | .eps => [(s, caps)]
    | .char c =>
      match s with
      | [] => []
      | x :: xs => if x = c then [(xs, caps)] else []
    | .digit =>
      match s with
      | [] => []
      | x :: xs => if x.isDigit then [(xs, caps)] else []
    | .space =>
      match s with
      | [] => []
      | x :: xs => if x.isWhitespace then [(xs, caps)] else []
    | .seq r1 r2 =>
      (matchList n r1 s caps).flatMap (fun p => matchList n r2 p.1 p.2)
    | .alt r1 r2 => matchList n r1 s caps ++ matchList n r2 s caps
    | .star r1 =>
      ((matchList n r1 s caps).filter (fun p => p.1.length < s.length)).flatMap
        (fun p => matchList n (.star r1) p.1 p.2) ++ [(s, caps)]
    | .group i r1 =>
      (matchList n r1 s caps).map
        (fun p => (p.1, p.2.set i (some (String.mk (s.take (s.length - p.1.length))))))

/-- Try to match `r` at each successive start position (leftmost first);
at the first position where a match exists, return the capture state of
the preferred (first) match.  This is `re.search`'s position scan
(the empty position at the end of the string included). -/
def searchAux (fuel : Nat) (r : Regex) (caps : Caps) : List Char → Option Caps
  | [] =>
    match (matchList fuel r [] caps).head? with
    | some p => some p.2
    | none => none
  | c :: xs =>
    match (matchList fuel r (c :: xs) caps).head? with
    | some p => some p.2
    | none => searchAux fuel r caps xs

/-- `re.search(pattern, message)`: `none` when no match anywhere, else
`some groups` where `groups` models `match.groups()` (one `Option String`
per capturing group). -/
def reSearch (r : Regex) (message : String) : Option Caps :=
  searchAux ((r.size + 1) * (message.length + 1) + 1) r
    (List.replicate r.groupBound none) message.toList

/-- Fold a digit list into a natural number. -/
def digitsToNat (cs : List Char) : Nat :=
  cs.foldl (fun n c => n * 10 + (c.toNat - '0'.toNat)) 0

/-- Python `float(s)` restricted to the plain decimal literals
(`-?\d+(\.\d+)?`) that the embedded patterns can capture, parsed as an
exact rational; `none` models `float` raising `ValueError`. -/
def pyFloat (s : String) : Option ℚ :=
  let cs := s.toList
  let signed := cs.head? = some '-'
  let cs' := if signed then cs.tail else cs
  let intPart := cs'.takeWhile Char.isDigit
  let rest := cs'.dropWhile Char.isDigit
  if intPart.isEmpty then none
  else
    let mag : Option ℚ :=
      match rest with
      | [] => some (mkRat (digitsToNat intPart) 1)
      | '.' :: frac =>
        if frac.isEmpty ∨ ¬ frac.all Char.isDigit then none
        else some (mkRat (digitsToNat intPart * 10 ^ frac.length + digitsToNat frac)
          (10 ^ frac.length))
      | _ => none
    mag.map (fun q => if signed then -q else q)

/-- `WeatherDataProcessor.extract_measurement`: try the configured
patterns in order; on the first pattern that matches, return its key and
`float(next(x for x in match.groups() if x is not None))`.  `next` on an
exhausted generator raises `StopIteration`; `float` on a non-numeric
string raises `ValueError`.  If no pattern matches, return `(None, None)`. -/
def extract_measurement (patterns : List (String × Regex)) (message : String) :
    Except PyErr (Option String × Option ℚ) :=
  match patterns with
  | [] => .ok (none, none)
  | (key, pattern) :: rest =>
    match reSearch pattern message with
    | some groups =>
      match (groups.filterMap id).head? with
      | none => .error .stopIteration
      | some g =>
        match pyFloat g with
        | some v => .ok (some key, some v)
        | none => .error (.valueError g)
    | none => extract_measurement rest message

/-- The configured pattern `(\d+(\.\d+)?)\s?mm` for `Rainfall`. -/
def rainfallRegex : Regex :=
  .seq (.group 0 (.seq (Regex.plus .digit)
        (Regex.opt (.group 1 (.seq (.char '.') (Regex.plus .digit))))))
    (.seq (Regex.opt .space) (Regex.lit "mm"))

/-- The configured pattern `(\d+(\.\d+)?)\s?C` for `Temperature`. -/
def temperatureRegex : Regex :=
  .seq (.group 0 (.seq (Regex.plus .digit)
        (Regex.opt (.group 1 (.seq (.char '.') (Regex.plus .digit))))))
    (.seq (Regex.opt .space) (.char 'C'))

/-! ## Dataframes of the field pipeline

A dataframe is modelled column-wise: an ordered list of labelled columns.
Cell positions within a column correspond to row positions. -/

/-- A dataframe: ordered labelled columns. -/
abbrev Table := List (String × List Val)

/-- The column labels, in order (`df.columns`). -/
def labels (df : Table) : List String := df.map (·.1)

/-- `df[l]`: the cells of the first column labelled `l`, if any. -/
def getCol (l : String) (df : Table) : Option (List Val) :=
  (df.find? (fun c => c.1 = l)).map (·.2)

/-- `df[l] = cells`: replace the first column labelled `l`, or append a
new column at the end when no column has that label. -/
def setCol (l : String) (cells : List Val) : Table → Table
  | [] => [(l, cells)]
  | c :: rest => if c.1 = l then (l, cells) :: rest else c :: setCol l cells rest

/-- `df.rename(columns=...)` with an arbitrary label map: relabel every
column, leave cells untouched (labels not in the map are mapped to
themselves by `f`). -/
def renameTable (f : String → String) (df : Table) : Table :=
  df.map (fun c => (f c.1, c.2))

/-- The Python dict literal `{k1: v1, k2: v2}` as a total label map
(keys not present map to themselves).  When `k1 = k2` the second entry
wins, as in Python. -/
def pyDict2 (k1 v1 k2 v2 : String) (l : String) : String :=
  if l = k2 then v2 else if l = k1 then v1 else l

/-- The Python dict literal `{k: v}` as a total label map. -/
def pyDict1 (k v : String) (l : String) : String :=
  if l = k then v else l

/-- The `while temp_name in self.df.columns: temp_name += "_"` loop of
`rename_columns`: keep appending `"_"` until the name is not a column
label.  `fuel` bounds the iterations; `cols.length + 1` always
suffices (each candidate is longer than the last, so at most
`cols.length` candidates can collide). -/
def freshTemp (cols : List String) : Nat → String → String
  | 0, base => base
  | n + 1, base => if base ∈ cols then freshTemp cols n (base ++ "_") else base

/-- The label-swapping core of `FieldDataProcessor.rename_columns`:
`df.rename(columns={column1: temp, column2: column1})` followed by
`df.rename(columns={temp: column2})`, with `temp` the fresh name produced
by the guard loop starting from `"__temp_name_for_swap__"`. -/
def renameSwap (column1 column2 : String) (df : Table) : Table :=
  let temp := freshTemp (labels df) ((labels df).length + 1) "__temp_name_for_swap__"
  renameTable (pyDict1 temp column2)
    (renameTable (pyDict2 column1 temp column2 column1) df)

/-- `d.get(s, s)` on the corrections dict: the canonical form when `s`
has an entry, otherwise `s` itself. -/
def pyGet (m : List (String × String)) (s : String) : String :=
  ((m.find? (fun p => p.1 = s)).map (·.2)).getD s

/-- The per-cell action of the crop-type correction
`lambda crop: self.values_to_rename.get(crop, crop)`:
a string cell is looked up in the corrections mapping, any other cell is
passed to `dict.get` unchanged (a non-string key is simply absent). -/
def correctCell (m : List (String × String)) : Val → Val
  | .str s => .str (pyGet m s)
  | v => v

/-- `Series.abs()` on one cell: `abs` of a number, NaN stays NaN, and a
string cell raises `TypeError` as in pandas. -/
def absCell : Val → Except PyErr Val
  | .num q => .ok (.num |q|)
  | .null => .ok .null
  | .str _ => .error .typeError

/-- `FieldDataProcessor.apply_corrections(column_name, abs_column)` on a
dataframe: `df['Elevation'] = df['Elevation'].abs()` then
`df['Crop_type'] = df['Crop_type'].apply(lambda crop: values_to_rename.get(crop, crop))`.
The source reads and writes the literal labels `'Elevation'` and
`'Crop_type'`; the two parameters are accepted and never used, exactly as
in the source.  A missing column raises `KeyError`. -/
def apply_corrections_df (values_to_rename : List (String × String))
    (column_name abs_column : String) (df : Table) : Except PyErr Table :=
  match getCol "Elevation" df with
  | none => .error (.keyError "Elevation")
  | some ecells =>
    match ecells.mapM absCell with
    | .error e => .error e
    | .ok ecells' =>
      let df1 := setCol "Elevation" ecells' df
      match getCol "Crop_type" df1 with
      | none => .error (.keyError "Crop_type")
      | some ccells =>
        .ok (setCol "Crop_type" (ccells.map (correctCell values_to_rename)) df1)

/-! ## The station join (`FieldDataProcessor.weather_station_mapping`)

The join step is modelled row-wise: a field row is its key plus an opaque
payload, and the mapping CSV is a list of `Field_ID → Weather_station`
rows together with a flag recording whether the CSV carries the
`'Unnamed: 0'` bookkeeping column that the source drops. -/

/-- One row of the field dataframe entering the join: its `Field_ID` key
and the remaining cells of the row. -/
structure FieldRow where
  fid : Int
  payload : List Val
deriving DecidableEq, Repr

/-- One row of the station-mapping CSV. -/
structure MapRow where
  fid : Int
  station : String
deriving DecidableEq, Repr

/-- The station-mapping CSV as parsed by `pd.read_csv`: its data rows
plus whether the file carries the `'Unnamed: 0'` index column. -/
structure MappingCSV where
  unnamedZero : Bool
  rows : List MapRow
deriving DecidableEq, Repr

/-- A field row after the join: the input row plus the attached
`Weather_station` value (`none` models NaN). -/
structure JoinedRow where
  row : FieldRow
  station : Option String
deriving DecidableEq, Repr

/-- `df.merge(mapping, on='Field_ID', how='left')`: for each left row in
order, one output row per matching mapping row (in mapping order), or a
single row with a null station when no mapping row matches.  The merged
frame gets a fresh 0-based range index. -/
def leftMerge (df : List FieldRow) (m : List MapRow) : List JoinedRow :=
  df.flatMap (fun r =>
    let hits := m.filter (fun mr => mr.fid = r.fid)
    if hits.isEmpty then [⟨r, none⟩]
    else hits.map (fun mr => ⟨r, some mr.station⟩))

/-- The index-aligned column assignment
`self.df['Weather_station'] = weather_mapping_df['Weather_station']`:
the field table carries the default 0-based range index and the merged
frame a fresh one, so field row `i` receives the station of merged row
`i`.  (Were the merged frame shorter, the remaining rows would get NaN;
a left merge always has at least as many rows as its left input.) -/
def alignStations : List FieldRow → List JoinedRow → List JoinedRow
  | [], _ => []
  | r :: rs, [] => ⟨r, none⟩ :: alignStations rs []
  | r :: rs, j :: js => ⟨r, j.station⟩ :: alignStations rs js

/-- The station the mapping table associates to a field key, if any. -/
def lookupStation (fid : Int) (m : List MapRow) : Option String :=
  (m.find? (fun mr => mr.fid = fid)).map (fun mr => mr.station)

/-- `FieldDataProcessor.weather_station_mapping` on an ingested field
table: merge with the mapping CSV, drop its `'Unnamed: 0'` column
(`KeyError` when absent), then assign
`self.df['Weather_station'] = weather_mapping_df['Weather_station']`.
The assignment aligns on the index: the field table carries the default
0-based range index, so row `i` of the field table receives the station
of row `i` of the merged frame.  (The source finally returns an unrelated
re-fetch of the raw mapping CSV, noted by the spec as unused; the
authoritative result modelled here is the mutated field table.) -/
def weather_station_mapping_df (df : List FieldRow) (csv : MappingCSV) :
    Except PyErr (List JoinedRow) :=
  if !csv.unnamedZero then .error (.keyError "Unnamed: 0")
  else .ok (alignStations df (leftMerge df csv.rows))

/-! ## Weather message processing -/

/-- One row of the weather dataframe: the station identifier cell and the
free-text `Message`. -/
structure WeatherRow where
  station : Val
  message : String
deriving DecidableEq, Repr

/-- A weather row after `process_messages`: the input row plus the two
new aligned cells `Measurement` and `Value`. -/
structure WeatherRowOut where
  station : Val
  message : String
  measurement : Option String
  value : Option ℚ
deriving DecidableEq, Repr

/-- The dataframe body of `WeatherDataProcessor.process_messages`:
`result = weather_df['Message'].apply(extract_measurement)` followed by
`weather_df['Measurement'], weather_df['Value'] = zip(*result)`.
`apply` propagates any exception of `extract_measurement`; on an empty
frame `zip(*result)` is an empty iterator and unpacking it into two
targets raises `ValueError`, before any column is assigned. -/
def process_messages_df (patterns : List (String × Regex)) (wdf : List WeatherRow) :
    Except PyErr (List WeatherRowOut) :=
  match wdf.mapM (fun r => extract_measurement patterns r.message) with
  | .error e => .error e
  | .ok results =>
    if wdf.isEmpty then .error (.valueError "not enough values to unpack")
    else
      .ok ((wdf.zip results).map
        (fun p => ⟨p.1.station, p.1.message, p.2.1, p.2.2⟩))

/-! ## Data acquisition (`scripts/data_ingestion.py`)

The actual fetch (`pd.read_sql_query`, `pd.read_csv`) is an external
capability; what is embedded is the repository's handling of the fetched
frame: the zero-row check and the pass-through. -/

/-- `query_data` applied to the frame the SQL fetch produced: raise
`ValueError` on an empty result, otherwise return the frame unchanged. -/
def query_data (df : List (List Val)) : Except PyErr (List (List Val)) :=
  if df.isEmpty then .error (.valueError "The query returned an empty DataFrame.")
  else .ok df

/-- `read_from_web_CSV` applied to the frame `pd.read_csv` produced:
raise `ValueError` on an empty result, otherwise return the frame
unchanged. -/
def read_from_web_CSV (df : List (List Val)) : Except PyErr (List (List Val)) :=
  if df.isEmpty then .error (.valueError "The query returned an empty DataFrame.")
  else .ok df

/-! ## Processor state machines

`FieldDataProcessor.__init__` stores the configuration and sets
`self.df = None`; `WeatherDataProcessor.__init__` stores the patterns and
sets `self.weather_df = None`.  Each transformation method reads the
current table attribute.  The connection / URL configuration strings are
not consulted by the modelled methods (the fetched data is passed in as
an argument) and are omitted from the state. -/

/-- The configuration a `FieldDataProcessor` is constructed with:
`columns_to_rename` and `values_to_rename`, each a Python dict modelled
as an insertion-ordered association list. -/
structure FieldConfig where
  columns_to_rename : List (String × String)
  values_to_rename : List (String × String)
deriving DecidableEq, Repr

/-- The mutable state of a `FieldDataProcessor`: its configuration and
`self.df` (`none` = not yet ingested). -/
structure FieldState where
  config : FieldConfig
  df : Option Table
deriving DecidableEq, Repr

/-- `FieldDataProcessor.rename_columns`: take the first key and first
value of `columns_to_rename` (`IndexError` on an empty dict), then run
the temp-name guard loop and the two renames.  When `self.df` is `None`,
the loop condition `temp_name in self.df.columns` dereferences `None`
and raises `AttributeError`. -/
def FieldDataProcessor.rename_columns (st : FieldState) : Except PyErr FieldState :=
  match st.config.columns_to_rename with
  | [] => .error .indexError
  | (column1, column2) :: _ =>
    match st.df with
    | none => .error .attributeError
    | some df => .ok { st with df := some (renameSwap column1 column2 df) }

/-- `FieldDataProcessor.apply_corrections` at the state level: when
`self.df` is `None`, `self.df['Elevation']` subscripts `None` and raises
`TypeError`; otherwise the dataframe-level correction runs. -/
def FieldDataProcessor.apply_corrections (st : FieldState)
    (column_name abs_column : String) : Except PyErr FieldState :=
  match st.df with
  | none => .error .typeError
  | some df =>
    match apply_corrections_df st.config.values_to_rename column_name abs_column df with
    | .error e => .error e
    | .ok df' => .ok { st with df := some df' }

/-- `FieldDataProcessor.weather_station_mapping` at the state level: when
`self.df` is `None`, the attribute access `self.df.merge` raises
`AttributeError` (before the mapping CSV is even read); otherwise the
join runs on the ingested rows. -/
def FieldDataProcessor.weather_station_mapping (df : Option (List FieldRow))
    (csv : MappingCSV) : Except PyErr (List JoinedRow) :=
  match df with
  | none => .error .attributeError
  | some rows => weather_station_mapping_df rows csv

/-- The mutable state of a `WeatherDataProcessor`: its configured
patterns and `self.weather_df` (`none` = not yet loaded). -/
structure WeatherState where
  patterns : List (String × Regex)
  weather_df : Option (List WeatherRow)
deriving DecidableEq, Repr

/-- `WeatherDataProcessor.process_messages`: the method guards with
`if self.weather_df is not None:`; on an uninitialized state it only
logs a warning and returns `self.weather_df` (i.e. `None`) — it does not
raise.  Otherwise the dataframe body runs and the processed frame is
returned. -/
def WeatherDataProcessor.process_messages (st : WeatherState) :
    Except PyErr (Option (List WeatherRowOut)) :=
  match st.weather_df with
  | none => .ok none
  | some wdf =>
    match process_messages_df st.patterns wdf with
    | .error e => .error e
    | .ok rows => .ok (some rows)

/-- The arithmetic mean of a list of values, `none` when the list is
empty (pandas: the mean of an empty/all-NaN group is NaN). -/
def meanQ (qs : List ℚ) : Option ℚ :=
  if qs.isEmpty then none else some (qs.sum / qs.length)

/-- The groupby-mean body of `WeatherDataProcessor.calculate_means`:
group the processed rows by `(Weather_station_ID, Measurement)` — pandas
drops rows whose group key contains NaN, i.e. unmatched messages — and
take the mean of the non-null `Value`s of each group.  (The final
`unstack` only pivots this same information into a wide shape.) -/
def calculate_means_df (rows : List WeatherRowOut) :
    List ((Val × String) × Option ℚ) :=
  let keys := (rows.filterMap (fun r => r.measurement.map (fun m => (r.station, m)))).dedup
  keys.map (fun k =>
    (k, meanQ ((rows.filter
        (fun r => r.station == k.1 && r.measurement == some k.2)).filterMap (·.value))))

/-- `WeatherDataProcessor.calculate_means`: the method guards with
`if self.weather_df is not None:`; on an uninitialized state it logs a
warning and returns `None` — it does not raise. -/
def WeatherDataProcessor.calculate_means (wdf : Option (List WeatherRowOut)) :
    Option (List ((Val × String) × Option ℚ)) :=
  match wdf with
  | none => none
  | some rows => some (calculate_means_df rows)

/-! ## Supporting lemmas -/

/-- Whether a cell is a number or null (i.e. not a string). -/
def Val.numOrNull : Val → Bool
  | .str _ => false
  | _ => true

/-- The total action of `Series.abs()` on the non-string cells. -/
def absTotal : Val → Val
  | .num q => .num |q|
  | v => v

/-- Exchanging two labels: the net effect on one column label of the
two-step rename of `rename_columns`. -/
def swapLabel (c1 c2 l : String) : String :=
  if l = c1 then c2 else if l = c2 then c1 else l

theorem getCol_setCol_self (l : String) (cells : List Val) (df : Table) :
    getCol l (setCol l cells df) = some cells := by
  induction df with
  | nil => simp [getCol, setCol, List.find?]
  | cons c rest ih =>
    by_cases hc : c.1 = l
    · simp [getCol, setCol, hc, List.find?]
    · simp only [setCol, hc, if_false]
      simpa [getCol, List.find?, hc] using ih

theorem getCol_setCol_ne {l l' : String} (h : l ≠ l') (cells : List Val) (df : Table) :
    getCol l (setCol l' cells df) = getCol l df := by
  induction df with
  | nil =>
    simp [getCol, setCol, List.find?, Ne.symm h]
  | cons c rest ih =>
    by_cases hc : c.1 = l'
    · simp [getCol, setCol, hc, List.find?, Ne.symm h]
    · by_cases hcl : c.1 = l
      · simp [getCol, setCol, hc, hcl, List.find?, h]
      · simp only [setCol, hc, if_false]
        simpa [getCol, List.find?, hcl] using ih

theorem mapM_absCell_ok {e : List Val} (h : ∀ x ∈ e, x.numOrNull = true) :
    e.mapM absCell = .ok (e.map absTotal) := by
  induction e with
  | nil => rfl
  | cons x xs ih =>
    have hx := h x (List.mem_cons_self x xs)
    have hxs : ∀ y ∈ xs, y.numOrNull = true := fun y hy => h y (List.mem_cons_of_mem x hy)
    cases x with
    | str s => simp [Val.numOrNull] at hx
    | num q =>
      simp only [List.mapM_cons, absCell, ih hxs, List.map_cons, absTotal]
      rfl
    | null =>
      simp only [List.mapM_cons, absCell, ih hxs, List.map_cons, absTotal]
      rfl

theorem apply_corrections_df_spec (v : List (String × String)) (cn ab : String)
    {df : Table} {e c : List Val}
    (he : getCol "Elevation" df = some e) (hnum : ∀ x ∈ e, x.numOrNull = true)
    (hc : getCol "Crop_type" df = some c) :
    apply_corrections_df v cn ab df =
      .ok (setCol "Crop_type" (c.map (correctCell v))
        (setCol "Elevation" (e.map absTotal) df)) := by
  have hne : ("Crop_type" : String) ≠ "Elevation" := by decide
  have hc' : getCol "Crop_type" (setCol "Elevation" (e.map absTotal) df) = some c := by
    rw [getCol_setCol_ne hne, hc]
  simp only [apply_corrections_df, he]
  rw [mapM_absCell_ok hnum]
  simp [hc']

theorem apply_corrections_df_ok_inv {v : List (String × String)} {cn ab : String}
    {df out : Table} (h : apply_corrections_df v cn ab df = .ok out) :
    ∃ (e' c : List Val),
      out = setCol "Crop_type" (c.map (correctCell v)) (setCol "Elevation" e' df) := by
  unfold apply_corrections_df at h
  cases he : getCol "Elevation" df with
  | none => simp only [he] at h; cases h
  | some e =>
    simp only [he] at h
    cases hm : e.mapM absCell with
    | error err => simp only [hm] at h; cases h
    | ok e2 =>
      simp only [hm] at h
      cases hc : getCol "Crop_type" (setCol "Elevation" e2 df) with
      | none => simp only [hc] at h; cases h
      | some c => 
        simp only [hc] at h
        exact ⟨e2, c, (Except.ok.inj h).symm⟩

/-! ## The claims -/

/-- C9: for every fetched result set with zero rows, `query_data` and
`read_from_web_CSV` both fail loudly with a `ValueError` and never hand
the empty table to the caller; with at least one row the table is
returned unchanged. -/
theorem acquisition_empty_result_fails (df : List (List Val)) :
    (df = [] →
      query_data df = .error (.valueError "The query returned an empty DataFrame.") ∧
      read_from_web_CSV df = .error (.valueError "The query returned an empty DataFrame.")) ∧
    (df ≠ [] → query_data df = .ok df ∧ read_from_web_CSV df = .ok df) := by
  constructor
  · rintro rfl
    exact ⟨rfl, rfl⟩
  · intro h
    constructor <;> simp [query_data, read_from_web_CSV, h]

/-- Witness for C9 at a concrete empty and a concrete one-row result. -/
theorem acquisition_empty_result_fails_witness :
    query_data [] = .error (.valueError "The query returned an empty DataFrame.") ∧
    query_data [[Val.num 7]] = .ok [[Val.num 7]] :=
  ⟨((acquisition_empty_result_fails []).1 rfl).1,
   ((acquisition_empty_result_fails [[Val.num 7]]).2 (by decide)).1⟩

/-- C10: `apply_corrections` ignores its `column_name` and `abs_column`
parameters — the result is the same for every choice of the two
arguments, and any column named by an argument that differs from the
hard-coded labels `'Elevation'` and `'Crop_type'` is left untouched. -/
theorem apply_corrections_ignores_column_args
    (v : List (String × String)) (df : Table) (cn ab cn' ab' : String) :
    apply_corrections_df v cn ab df = apply_corrections_df v cn' ab' df ∧
    (∀ out, apply_corrections_df v cn ab df = .ok out →
      (cn ≠ "Elevation" → cn ≠ "Crop_type" → getCol cn out = getCol cn df) ∧
      (ab ≠ "Elevation" → ab ≠ "Crop_type" → getCol ab out = getCol ab df)) := by
  refine ⟨rfl, fun out h => ?_⟩
  obtain ⟨e', c, rfl⟩ := apply_corrections_df_ok_inv h
  constructor
  · intro h1 h2
    rw [getCol_setCol_ne h2, getCol_setCol_ne h1]
  · intro h1 h2
    rw [getCol_setCol_ne h2, getCol_setCol_ne h1]

/-- Witness for C10: a table with an extra column `'X'` named by the
arguments; the call equals the default-argument call and leaves `'X'`
untouched. -/
theorem apply_corrections_ignores_column_args_witness :
    apply_corrections_df [("a", "b")] "X" "X"
        [("Elevation", [Val.num (-2)]), ("Crop_type", [Val.str "a"]), ("X", [Val.num 5])] =
      apply_corrections_df [("a", "b")] "Crop_type" "Elevation"
        [("Elevation", [Val.num (-2)]), ("Crop_type", [Val.str "a"]), ("X", [Val.num 5])] ∧
    getCol "X"
        [("Elevation", [Val.num 2]), ("Crop_type", [Val.str "b"]), ("X", [Val.num 5])] =
      getCol "X"
        [("Elevation", [Val.num (-2)]), ("Crop_type", [Val.str "a"]), ("X", [Val.num 5])] := by
  have h := apply_corrections_ignores_column_args [("a", "b")]
    [("Elevation", [Val.num (-2)]), ("Crop_type", [Val.str "a"]), ("X", [Val.num 5])]
    "X" "X" "Crop_type" "Elevation"
  refine ⟨h.1, ?_⟩
  have h2 := (h.2
    [("Elevation", [Val.num 2]), ("Crop_type", [Val.str "b"]), ("X", [Val.num 5])]
    (by decide)).1 (by decide) (by decide)
  exact h2

/-- C4, counterexample: with `self.df` / `self.weather_df` still unset,
no modelled step fails with a "not initialized" error.  The
`FieldDataProcessor` steps crash with `AttributeError`/`TypeError` —
exactly the null-dereference-style crashes the claim excludes — and the
`WeatherDataProcessor` steps do not fail at all: they log a warning and
return `None`. -/
theorem uninitialized_steps_counterexample :
    FieldDataProcessor.rename_columns
        ⟨⟨[("Annual_yield", "Crop_type")], [("cassaval", "cassava")]⟩, none⟩ =
      .error .attributeError ∧
    FieldDataProcessor.apply_corrections
        ⟨⟨[("Annual_yield", "Crop_type")], [("cassaval", "cassava")]⟩, none⟩
        "Crop_type" "Elevation" = .error .typeError ∧
    FieldDataProcessor.weather_station_mapping none ⟨true, [⟨1, "A"⟩]⟩ =
      .error .attributeError ∧
    WeatherDataProcessor.process_messages ⟨[("Rainfall", rainfallRegex)], none⟩ =
      .ok none ∧
    WeatherDataProcessor.calculate_means none = none :=
  ⟨rfl, rfl, rfl, rfl, rfl⟩

/-- C4, amended: calling a later step on an uninitialized processor does
not raise a clear "not initialized" error.  On `FieldDataProcessor`
(with a nonempty `columns_to_rename` configuration) `rename_columns`
and the station join raise `AttributeError` and `apply_corrections`
raises `TypeError` — null-dereference-style crashes; on
`WeatherDataProcessor`, `process_messages` and `calculate_means` do not
fail at all: they log a warning, skip the work and return `None`. -/
theorem uninitialized_steps_behavior (cfg : FieldConfig) (c1 c2 : String)
    (rest : List (String × String)) (hcr : cfg.columns_to_rename = (c1, c2) :: rest)
    (cn ab : String) (pats : List (String × Regex)) (csv : MappingCSV) :
    FieldDataProcessor.rename_columns ⟨cfg, none⟩ = .error .attributeError ∧
    FieldDataProcessor.apply_corrections ⟨cfg, none⟩ cn ab = .error .typeError ∧
    FieldDataProcessor.weather_station_mapping none csv = .error .attributeError ∧
    WeatherDataProcessor.process_messages ⟨pats, none⟩ = .ok none ∧
    WeatherDataProcessor.calculate_means none = none := by
  refine ⟨?_, rfl, rfl, rfl, rfl⟩
  simp [FieldDataProcessor.rename_columns, hcr]

/-- Witness for C4's amended theorem at a concrete configuration. -/
theorem uninitialized_steps_behavior_witness :
    FieldDataProcessor.rename_columns
        ⟨⟨[("Annual_yield", "Crop_type"), ("Crop_type", "Annual_yield")], []⟩, none⟩ =
      .error .attributeError ∧
    WeatherDataProcessor.process_messages ⟨[], none⟩ = .ok none :=
  ⟨(uninitialized_steps_behavior
      ⟨[("Annual_yield", "Crop_type"), ("Crop_type", "Annual_yield")], []⟩
      "Annual_yield" "Crop_type" [("Crop_type", "Annual_yield")] rfl
      "Crop_type" "Elevation" [] ⟨true, []⟩).1,
   (uninitialized_steps_behavior
      ⟨[("Annual_yield", "Crop_type"), ("Crop_type", "Annual_yield")], []⟩
      "Annual_yield" "Crop_type" [("Crop_type", "Annual_yield")] rfl
      "Crop_type" "Elevation" [] ⟨true, []⟩).2.2.2.1⟩

/-- C6: the crop-type correction is a total per-value function.  On any
field table carrying the two corrected columns (with numeric-or-null
elevations, so the step completes), the corrected crop column is exactly
the per-cell image of the input column — one value per row, same row
count — where a string value with an entry in the corrections mapping
becomes its canonical form and every other value passes through
unchanged. -/
theorem crop_type_correction_total (v : List (String × String)) (cn ab : String)
    (df : Table) (e c : List Val)
    (he : getCol "Elevation" df = some e) (hnum : ∀ x ∈ e, x.numOrNull = true)
    (hc : getCol "Crop_type" df = some c) :
    ∃ out, apply_corrections_df v cn ab df = .ok out ∧
      getCol "Crop_type" out = some (c.map (correctCell v)) ∧
      (c.map (correctCell v)).length = c.length ∧
      (∀ s p, v.find? (fun q => q.1 = s) = some p →
        correctCell v (.str s) = .str p.2) ∧
      (∀ s, v.find? (fun q => q.1 = s) = none → correctCell v (.str s) = .str s) ∧
      (∀ x : Val, (∀ s, x ≠ .str s) → correctCell v x = x) := by
  refine ⟨_, apply_corrections_df_spec v cn ab he hnum hc,
    getCol_setCol_self _ _ _, List.length_map _ _, ?_, ?_, ?_⟩
  · intro s p hfind
    simp [correctCell, pyGet, hfind]
  · intro s hfind
    simp [correctCell, pyGet, hfind]
  · intro x hx
    cases x with
    | str s => exact absurd rfl (hx s)
    | num q => rfl
    | null => rfl

/-- Witness for C6, the spec's scenario: a row with `Crop_type='cassaval'`
and corrections `{'cassaval': 'cassava'}` comes out as `'cassava'`. -/
theorem crop_type_correction_total_witness :
    ∃ out,
      apply_corrections_df [("cassaval", "cassava")] "Crop_type" "Elevation"
          [("Elevation", [Val.num 10]), ("Crop_type", [Val.str "cassaval"])] = .ok out ∧
      getCol "Crop_type" out = some [Val.str "cassava"] := by
  obtain ⟨out, h1, h2, -⟩ := crop_type_correction_total
    [("cassaval", "cassava")] "Crop_type" "Elevation"
    [("Elevation", [Val.num 10]), ("Crop_type", [Val.str "cassaval"])]
    [Val.num 10] [Val.str "cassaval"] rfl (by decide) rfl
  exact ⟨out, h1, by rw [h2]; rfl⟩

/-- C7: after `apply_corrections`, the Elevation column is the cell-wise
absolute value of the input column; when every input elevation is
numeric, every corrected elevation is a non-negative number. -/
theorem elevation_abs_nonneg (v : List (String × String)) (cn ab : String)
    (df : Table) (e c : List Val)
    (he : getCol "Elevation" df = some e)
    (hq : ∀ x ∈ e, ∃ q : ℚ, x = .num q)
    (hc : getCol "Crop_type" df = some c) :
    ∃ out, apply_corrections_df v cn ab df = .ok out ∧
      getCol "Elevation" out = some (e.map absTotal) ∧
      (∀ q : ℚ, absTotal (.num q) = .num |q|) ∧
      (∀ y ∈ e.map absTotal, ∃ q : ℚ, y = .num q ∧ 0 ≤ q) := by
  have hnum : ∀ x ∈ e, x.numOrNull = true := by
    intro x hx
    obtain ⟨q, rfl⟩ := hq x hx
    rfl
  have hne : ("Elevation" : String) ≠ "Crop_type" := by decide
  refine ⟨_, apply_corrections_df_spec v cn ab he hnum hc, ?_, fun q => rfl, ?_⟩
  · rw [getCol_setCol_ne hne, getCol_setCol_self]
  · intro y hy
    obtain ⟨x, hx, rfl⟩ := List.mem_map.1 hy
    obtain ⟨q, rfl⟩ := hq x hx
    exact ⟨|q|, rfl, abs_nonneg q⟩

/-- Witness for C7 at a table with a negative elevation. -/
theorem elevation_abs_nonneg_witness :
    ∃ out,
      apply_corrections_df [] "Crop_type" "Elevation"
          [("Elevation", [Val.num (-125), Val.num 3]), ("Crop_type", [Val.str "tea", Val.str "maize"])] =
        .ok out ∧
      getCol "Elevation" out = some [Val.num 125, Val.num 3] := by
  obtain ⟨out, h1, h2, -⟩ := elevation_abs_nonneg [] "Crop_type" "Elevation"
    [("Elevation", [Val.num (-125), Val.num 3]), ("Crop_type", [Val.str "tea", Val.str "maize"])]
    [Val.num (-125), Val.num 3] [Val.str "tea", Val.str "maize"]
    rfl (by intro x hx; fin_cases hx <;> exact ⟨_, rfl⟩) rfl
  refine ⟨out, h1, by rw [h2]; norm_num [absTotal]⟩

theorem mapM_ok_of_forall {α β : Type} (g : α → Except PyErr β) (f : α → β)
    (l : List α) (h : ∀ a ∈ l, g a = .ok (f a)) : l.mapM g = .ok (l.map f) := by
  induction l with
  | nil => rfl
  | cons a as ih =>
    have ha := h a (List.mem_cons_self a as)
    have has : ∀ b ∈ as, g b = .ok (f b) := fun b hb => h b (List.mem_cons_of_mem a hb)
    simp only [List.mapM_cons, ha, ih has, List.map_cons]
    rfl

theorem zip_map_self {α β γ : Type} (f : α → β) (l : List α) (g : α × β → γ) :
    (l.zip (l.map f)).map g = l.map (fun x => g (x, f x)) := by
  induction l with
  | nil => rfl
  | cons a as ih => simp [ih]

/-- C8: on a non-empty weather table each of whose messages the extractor
handles without raising, `process_messages` keeps every input row, in
order, and only adds the two aligned columns `Measurement` and `Value`;
a row whose message matches no pattern still appears, carrying the
`(None, None)` no-match sentinel. -/
theorem process_messages_keeps_rows (patterns : List (String × Regex))
    (wdf : List WeatherRow) (f : WeatherRow → Option String × Option ℚ)
    (hne : wdf ≠ [])
    (hok : ∀ r ∈ wdf, extract_measurement patterns r.message = .ok (f r)) :
    process_messages_df patterns wdf =
      .ok (wdf.map (fun r => ⟨r.station, r.message, (f r).1, (f r).2⟩)) ∧
    (wdf.map (fun r => (⟨r.station, r.message, (f r).1, (f r).2⟩ : WeatherRowOut))).length
      = wdf.length ∧
    (∀ r ∈ wdf, f r = (none, none) →
      (⟨r.station, r.message, none, none⟩ : WeatherRowOut) ∈
        wdf.map (fun r => (⟨r.station, r.message, (f r).1, (f r).2⟩ : WeatherRowOut))) := by
  refine ⟨?_, List.length_map _ _, ?_⟩
  · unfold process_messages_df
    rw [mapM_ok_of_forall _ f wdf hok]
    simp only [List.isEmpty_iff, hne, if_false, zip_map_self]
  · intro r hr hfr
    refine List.mem_map.2 ⟨r, hr, ?_⟩
    rw [hfr]

/-- Witness for C8, combining the spec's two scenarios: a matching
message keeps its row and gains `('Rainfall', 25.4)`; the message
`"no data"` keeps its row and carries the sentinel. -/
theorem process_messages_keeps_rows_witness :
    process_messages_df [("Rainfall", rainfallRegex), ("Temperature", temperatureRegex)]
        [⟨Val.str "S1", "Rainfall: 25.4mm"⟩, ⟨Val.str "S2", "no data"⟩] =
      .ok [⟨Val.str "S1", "Rainfall: 25.4mm", some "Rainfall", some (mkRat 127 5)⟩,
           ⟨Val.str "S2", "no data", none, none⟩] := by
  have h := (process_messages_keeps_rows
    [("Rainfall", rainfallRegex), ("Temperature", temperatureRegex)]
    [⟨Val.str "S1", "Rainfall: 25.4mm"⟩, ⟨Val.str "S2", "no data"⟩]
    (fun r => if r.message = "Rainfall: 25.4mm" then (some "Rainfall", some (mkRat 127 5))
              else (none, none))
    (by decide) (by decide)).1
  rw [h]
  rfl

/-- C1: for every ordered pattern mapping and message in which some
pattern matches, `extract_measurement` returns the category of the
first matching pattern in the configured order — later patterns may
match as well and are ignored — paired with the first non-null captured
group of that match parsed as a float. -/
theorem extract_measurement_first_match (pre post : List (String × Regex))
    (key : String) (pattern : Regex) (message : String) (groups : Caps)
    (g : String) (v : ℚ)
    (hpre : ∀ k p, (k, p) ∈ pre → reSearch p message = none)
    (hm : reSearch pattern message = some groups)
    (hg : (groups.filterMap id).head? = some g)
    (hv : pyFloat g = some v) :
    extract_measurement (pre ++ (key, pattern) :: post) message =
      .ok (some key, some v) := by
  induction pre with
  | nil => simp [extract_measurement, hm, hg, hv]
  | cons kp rest ih =>
    obtain ⟨k0, p0⟩ := kp
    have hk : reSearch p0 message = none := hpre k0 p0 (List.mem_cons_self _ _)
    have hpre' : ∀ k p, (k, p) ∈ rest → reSearch p message = none :=
      fun k p hp => hpre k p (List.mem_cons_of_mem _ hp)
    simpa [extract_measurement, hk, List.cons_append] using ih hpre'

/-- Witness for C1 with two deliberately overlapping patterns: the
message `"25.4mm"` matches both the `Rainfall` pattern and a later
`Millimetres` pattern `(\d+)mm`; the result carries the first configured
category, `Rainfall`, with value 25.4. -/
theorem extract_measurement_first_match_witness :
    extract_measurement
        [("Temperature", temperatureRegex), ("Rainfall", rainfallRegex),
         ("Millimetres", Regex.seq (.group 0 (Regex.plus .digit)) (Regex.lit "mm"))]
        "25.4mm" = .ok (some "Rainfall", some (mkRat 127 5)) ∧
    reSearch (Regex.seq (.group 0 (Regex.plus .digit)) (Regex.lit "mm")) "25.4mm" ≠
      none := by
  constructor
  · exact extract_measurement_first_match
      [("Temperature", temperatureRegex)]
      [("Millimetres", Regex.seq (.group 0 (Regex.plus .digit)) (Regex.lit "mm"))]
      "Rainfall" rainfallRegex "25.4mm" [some "25.4", some ".4"] "25.4" (mkRat 127 5)
      (by
        intro k p hp
        simp only [List.mem_singleton, Prod.mk.injEq] at hp
        obtain ⟨rfl, rfl⟩ := hp
        decide)
      (by decide) (by decide) (by decide)
  · decide

/-- C2, counterexample: `extract_measurement` is not total over arbitrary
pattern sets.  The legal pattern `mm` (no capturing group) matches the
message `"25mm"`, `match.groups()` is empty, and
`next(x for x in match.groups() if x is not None)` raises
`StopIteration` — the call raises instead of returning a pair. -/
theorem extract_measurement_total_counterexample :
    extract_measurement [("Rainfall", Regex.lit "mm")] "25mm" =
      .error .stopIteration := by decide

/-- C2, amended: `extract_measurement` is deterministic (it is a
function), and it is total on every pattern set satisfying the
configuration constraint that each matching pattern captures at least
one non-null group whose text parses as a float: it then returns
exactly one of a full `(category, value)` pair or the `(None, None)`
sentinel, never a half-filled pair and never an error.  (Without the
constraint it can raise `StopIteration` or `ValueError`.) -/
theorem extract_measurement_total_on_capturing_patterns
    (patterns : List (String × Regex)) (message : String)
    (h : ∀ k p, (k, p) ∈ patterns → ∀ groups, reSearch p message = some groups →
      ∃ g v, (groups.filterMap id).head? = some g ∧ pyFloat g = some v) :
    ∃ res, extract_measurement patterns message = .ok res ∧
      (res = (none, none) ∨ ∃ k v, res = (some k, some v)) := by
  induction patterns with
  | nil => exact ⟨(none, none), rfl, .inl rfl⟩
  | cons kp rest ih =>
    obtain ⟨k0, p0⟩ := kp
    cases hm : reSearch p0 message with
    | none =>
      have h' : ∀ k p, (k, p) ∈ rest → ∀ groups, reSearch p message = some groups →
          ∃ g v, (groups.filterMap id).head? = some g ∧ pyFloat g = some v :=
        fun k p hp => h k p (List.mem_cons_of_mem _ hp)
      obtain ⟨res, hres, hshape⟩ := ih h'
      exact ⟨res, by simp [extract_measurement, hm, hres], hshape⟩
    | some groups =>
      obtain ⟨g, v, hg, hv⟩ := h k0 p0 (List.mem_cons_self _ _) groups hm
      exact ⟨(some k0, some v), by simp [extract_measurement, hm, hg, hv],
        .inr ⟨k0, v, rfl⟩⟩

/-- Witness for C2's amended theorem at the repository's `Rainfall`
pattern and the spec's scenario message. -/
theorem extract_measurement_total_witness :
    ∃ res, extract_measurement [("Rainfall", rainfallRegex)] "Rainfall: 25.4mm" =
        .ok res ∧
      (res = (none, none) ∨ ∃ k v, res = (some k, some v)) := by
  apply extract_measurement_total_on_capturing_patterns
  intro k p hmem groups hsearch
  simp only [List.mem_singleton, Prod.mk.injEq] at hmem
  obtain ⟨rfl, rfl⟩ := hmem
  rw [show reSearch rainfallRegex "Rainfall: 25.4mm" = some [some "25.4", some ".4"]
    from by decide] at hsearch
  obtain rfl := Option.some.inj hsearch
  exact ⟨"25.4", mkRat 127 5, by decide, by decide⟩

theorem filter_fid_eq_nil {m : List MapRow} {x : Int}
    (h : x ∉ m.map (fun mr => mr.fid)) :
    m.filter (fun mr => mr.fid = x) = [] :=
  List.filter_eq_nil_iff.2 (fun mr hmr hp =>
    h (List.mem_map.2 ⟨mr, hmr, of_decide_eq_true hp⟩))

theorem filter_fid_nodup {m : List MapRow}
    (hnd : (m.map (fun mr => mr.fid)).Nodup) (x : Int) :
    m.filter (fun mr => mr.fid = x) =
      (match m.find? (fun mr => mr.fid = x) with
       | none => []
       | some mr => [mr]) := by
  induction m with
  | nil => rfl
  | cons a as ih =>
    have hnd' := hnd
    rw [List.map_cons, List.nodup_cons] at hnd'
    obtain ⟨ha1, ha2⟩ := hnd'
    by_cases ha : a.fid = x
    · have hx : x ∉ as.map (fun mr => mr.fid) := ha ▸ ha1
      simp [List.filter_cons, List.find?_cons, ha, filter_fid_eq_nil hx]
    · simp [List.filter_cons, List.find?_cons, ha, ih ha2]

theorem leftMerge_nodup {m : List MapRow}
    (hnd : (m.map (fun mr => mr.fid)).Nodup) (df : List FieldRow) :
    leftMerge df m = df.map (fun r => ⟨r, lookupStation r.fid m⟩) := by
  have hrow : ∀ r : FieldRow,
      (let hits := m.filter (fun mr => mr.fid = r.fid)
       if hits.isEmpty then [(⟨r, none⟩ : JoinedRow)]
       else hits.map (fun mr => ⟨r, some mr.station⟩)) =
      [⟨r, lookupStation r.fid m⟩] := by
    intro r
    show (if (m.filter (fun mr => mr.fid = r.fid)).isEmpty
          then [(⟨r, none⟩ : JoinedRow)]
          else (m.filter (fun mr => mr.fid = r.fid)).map
            (fun mr => ⟨r, some mr.station⟩)) =
      [⟨r, lookupStation r.fid m⟩]
    rw [filter_fid_nodup hnd r.fid]
    cases hf : m.find? (fun mr => mr.fid = r.fid) with
    | none => simp [lookupStation, hf]
    | some mr => simp [lookupStation, hf]
  induction df with
  | nil => rfl
  | cons r rs ih =>
    show (let hits := m.filter (fun mr => mr.fid = r.fid)
          if hits.isEmpty then [(⟨r, none⟩ : JoinedRow)]
          else hits.map (fun mr => ⟨r, some mr.station⟩)) ++ leftMerge rs m =
      _ :: List.map _ rs
    rw [hrow r, ih]
    rfl

theorem alignStations_map (df : List FieldRow) (f : FieldRow → JoinedRow) :
    alignStations df (df.map f) = df.map (fun r => ⟨r, (f r).station⟩) := by
  induction df with
  | nil => rfl
  | cons r rs ih => simp [alignStations, ih]

/-- C3, counterexample: the claim fails for mapping tables with a
duplicated `Field_ID`.  Field table with keys 1 and 2; mapping table
`{1 → A, 1 → B}` (no entry for 2): the merge duplicates the key-1 row,
the index-aligned assignment shifts, and the key-2 field row — absent
from the mapping — comes out with station `B` instead of null. -/
theorem station_join_counterexample :
    weather_station_mapping_df [⟨1, []⟩, ⟨2, []⟩] ⟨true, [⟨1, "A"⟩, ⟨1, "B"⟩]⟩ =
      .ok [⟨⟨1, []⟩, some "A"⟩, ⟨⟨2, []⟩, some "B"⟩] ∧
    (2 : Int) ∉ ([⟨1, "A"⟩, ⟨1, "B"⟩] : List MapRow).map (fun mr => mr.fid) :=
  ⟨by decide, by decide⟩

/-- C3, amended: when the mapping table carries its bookkeeping
`'Unnamed: 0'` column and maps each `Field_ID` at most once (no
duplicate keys), every input field row appears exactly once, in order,
with the station its key maps to; a row whose key is absent from the
mapping gets a null station rather than causing an error. -/
theorem station_join_left_total (df : List FieldRow) (csv : MappingCSV)
    (hu : csv.unnamedZero = true)
    (hnd : (csv.rows.map (fun mr => mr.fid)).Nodup) :
    weather_station_mapping_df df csv =
      .ok (df.map (fun r => ⟨r, lookupStation r.fid csv.rows⟩)) ∧
    (df.map (fun r => (⟨r, lookupStation r.fid csv.rows⟩ : JoinedRow))).length
      = df.length ∧
    ∀ r ∈ df, r.fid ∉ csv.rows.map (fun mr => mr.fid) →
      (⟨r, none⟩ : JoinedRow) ∈
        df.map (fun r => (⟨r, lookupStation r.fid csv.rows⟩ : JoinedRow)) := by
  refine ⟨?_, List.length_map _ _, ?_⟩
  · unfold weather_station_mapping_df
    rw [hu, leftMerge_nodup hnd df, alignStations_map]
    simp
  · intro r hr habs
    have hnone : lookupStation r.fid csv.rows = none := by
      unfold lookupStation
      rw [List.find?_eq_none.2
        (fun mr hmr => by
          simp only [decide_eq_true_eq]
          exact fun he => habs (List.mem_map.2 ⟨mr, hmr, he⟩))]
      rfl
    exact List.mem_map.2 ⟨r, hr, by rw [hnone]⟩

/-- Witness for C3's amended theorem, the spec's scenario: `Field_ID = 7`
against a mapping lacking key 7 yields the row with a null station. -/
theorem station_join_left_total_witness :
    weather_station_mapping_df [⟨7, []⟩] ⟨true, [⟨1, "A"⟩]⟩ =
      .ok [⟨⟨7, []⟩, none⟩] := by
  have h := (station_join_left_total [⟨7, []⟩] ⟨true, [⟨1, "A"⟩]⟩ rfl (by decide)).1
  rw [h]
  rfl

theorem length_filter_mono {p q : String → Bool} (cols : List String)
    (himp : ∀ x, p x = true → q x = true) :
    (cols.filter p).length ≤ (cols.filter q).length := by
  rw [← List.countP_eq_length_filter, ← List.countP_eq_length_filter]
  exact List.countP_mono_left (fun a _ h => himp a h)

theorem length_filter_lt {p q : String → Bool} (cols : List String)
    (himp : ∀ x, p x = true → q x = true) (x : String) (hx : x ∈ cols)
    (hqx : q x = true) (hpx : p x = false) :
    (cols.filter p).length < (cols.filter q).length := by
  obtain ⟨s, t, rfl⟩ := List.append_of_mem hx
  simp only [List.filter_append, List.filter_cons, hqx, hpx, if_true, if_false,
    List.length_append, List.length_cons, Bool.false_eq_true]
  have h1 := length_filter_mono s himp
  have h2 := length_filter_mono t himp
  omega

theorem freshTemp_not_mem (cols : List String) :
    ∀ (fuel : Nat) (base : String),
      (cols.filter (fun c => base.length ≤ c.length)).length < fuel →
      freshTemp cols fuel base ∉ cols := by
  intro fuel
  induction fuel with
  | zero => exact fun base h => absurd h (by omega)
  | succ n ih =>
    intro base h
    by_cases hb : base ∈ cols
    · simp only [freshTemp, if_pos hb]
      apply ih
      have hone : ("_" : String).length = 1 := rfl
      have hlt : (cols.filter (fun c => (base ++ "_").length ≤ c.length)).length <
          (cols.filter (fun c => base.length ≤ c.length)).length := by
        apply length_filter_lt cols ?_ base hb
        · simp
        · simp only [decide_eq_false_iff_not, not_le, String.length_append, hone]
          omega
        · intro x hxp
          simp only [decide_eq_true_eq, String.length_append, hone] at hxp ⊢
          omega
      omega
    · simp only [freshTemp, if_neg hb]
      exact hb

theorem swap_step (c1 c2 temp l : String) (h1 : temp ≠ c1) (h2 : temp ≠ c2)
    (hl : l ≠ temp) :
    pyDict1 temp c2 (pyDict2 c1 temp c2 c1 l) = swapLabel c1 c2 l := by
  unfold pyDict1 pyDict2 swapLabel
  split_ifs <;> simp_all

theorem swapLabel_invol (c1 c2 l : String) :
    swapLabel c1 c2 (swapLabel c1 c2 l) = l := by
  unfold swapLabel
  split_ifs <;> simp_all

theorem swapLabel_left (c1 c2 : String) : swapLabel c1 c2 c1 = c2 := by
  simp [swapLabel]

theorem swapLabel_right (c1 c2 : String) : swapLabel c1 c2 c2 = c1 := by
  unfold swapLabel
  split_ifs <;> simp_all

theorem labels_rename (g : String → String) (df : Table) :
    labels (df.map (fun c => (g c.1, c.2))) = (labels df).map g := by
  simp [labels, List.map_map, Function.comp]

theorem renameSwap_aux (c1 c2 temp : String) (df : Table)
    (htemp : temp ∉ labels df) (h1 : c1 ∈ labels df) (h2 : c2 ∈ labels df) :
    renameTable (pyDict1 temp c2) (renameTable (pyDict2 c1 temp c2 c1) df) =
      df.map (fun c => (swapLabel c1 c2 c.1, c.2)) := by
  unfold renameTable
  rw [List.map_map]
  apply List.map_congr_left
  intro c hc
  have hcl : c.1 ∈ labels df := List.mem_map_of_mem (fun c => c.1) hc
  have hs := swap_step c1 c2 temp c.1
    (fun he => htemp (he ▸ h1)) (fun he => htemp (he ▸ h2))
    (fun he => htemp (he ▸ hcl))
  simp [Function.comp, hs]

theorem renameSwap_eq (c1 c2 : String) (df : Table)
    (h1 : c1 ∈ labels df) (h2 : c2 ∈ labels df) :
    renameSwap c1 c2 df = df.map (fun c => (swapLabel c1 c2 c.1, c.2)) := by
  have htemp :
      freshTemp (labels df) ((labels df).length + 1) "__temp_name_for_swap__" ∉
        labels df := by
    apply freshTemp_not_mem
    have := List.length_filter_le
      (fun c => decide (("__temp_name_for_swap__" : String).length ≤ c.length))
      (labels df)
    omega
  exact renameSwap_aux c1 c2 _ df htemp h1 h2

/-- C5: the column-pair correction is an involution.  On any state whose
table carries both columns of the configured swap pair, running
`rename_columns` twice restores the original column names and the
original column values — the pivot through a fresh temporary label makes
each run a pure name swap that leaves every cell where it was. -/
theorem rename_columns_involution (cfg : FieldConfig) (df : Table)
    (c1 c2 : String) (rest : List (String × String))
    (hcr : cfg.columns_to_rename = (c1, c2) :: rest)
    (h1 : c1 ∈ labels df) (h2 : c2 ∈ labels df) :
    (FieldDataProcessor.rename_columns ⟨cfg, some df⟩).bind
        FieldDataProcessor.rename_columns = .ok ⟨cfg, some df⟩ := by
  have step1 : FieldDataProcessor.rename_columns ⟨cfg, some df⟩ =
      .ok ⟨cfg, some (renameSwap c1 c2 df)⟩ := by
    simp [FieldDataProcessor.rename_columns, hcr]
  have h1'' : c1 ∈ labels (df.map (fun c => (swapLabel c1 c2 c.1, c.2))) := by
    rw [labels_rename]
    have hm := List.mem_map_of_mem (swapLabel c1 c2) h2
    rwa [swapLabel_right] at hm
  have h2'' : c2 ∈ labels (df.map (fun c => (swapLabel c1 c2 c.1, c.2))) := by
    rw [labels_rename]
    have hm := List.mem_map_of_mem (swapLabel c1 c2) h1
    rwa [swapLabel_left] at hm
  have hswap2 : renameSwap c1 c2 (renameSwap c1 c2 df) = df := by
    rw [renameSwap_eq c1 c2 df h1 h2,
      renameSwap_eq c1 c2 (df.map (fun c => (swapLabel c1 c2 c.1, c.2))) h1'' h2'',
      List.map_map]
    have hid : ∀ c ∈ df,
        ((fun c : String × List Val => (swapLabel c1 c2 c.1, c.2)) ∘
          (fun c : String × List Val => (swapLabel c1 c2 c.1, c.2))) c = c := by
      intro c _
      simp [Function.comp, swapLabel_invol]
    rw [List.map_congr_left hid]
    simp
  have step2 : FieldDataProcessor.rename_columns ⟨cfg, some (renameSwap c1 c2 df)⟩ =
      .ok ⟨cfg, some df⟩ := by
    simp only [FieldDataProcessor.rename_columns, hcr, hswap2]
  rw [step1]
  exact step2

/-- Witness for C5 at the repository's configuration and a two-column
table: two runs of `rename_columns` give back the original table. -/
theorem rename_columns_involution_witness :
    (FieldDataProcessor.rename_columns
        ⟨⟨[("Annual_yield", "Crop_type"), ("Crop_type", "Annual_yield")], []⟩,
          some [("Annual_yield", [Val.num 1]), ("Crop_type", [Val.str "tea"])]⟩).bind
      FieldDataProcessor.rename_columns =
    .ok ⟨⟨[("Annual_yield", "Crop_type"), ("Crop_type", "Annual_yield")], []⟩,
          some [("Annual_yield", [Val.num 1]), ("Crop_type", [Val.str "tea"])]⟩ :=
  rename_columns_involution _ _ "Annual_yield" "Crop_type"
    [("Crop_type", "Annual_yield")] rfl (by decide) (by decide)
